import Mathlib

/-!
Verification of the method-crm-mcp server core against its specification.

The development shallowly embeds the Python sources under src/method_mcp:
JSON values decoded by the json module become the inductive `Json`; the
exception taxonomy of errors.py becomes the inductive `Exc`; fallible code
returns `Except Exc _`; the HTTP transport, the base64 decoder and the
environment are passed in explicitly as data, so every definition is an
executable function of its inputs.
-/

namespace MethodMcp

/-- JSON values as decoded by Python's json module.  Numbers are modelled as
integers: every payload appearing in the verified properties is integral. -/
inductive Json where
  | null : Json
  | bool (b : Bool) : Json
  | num (n : Int) : Json
  | str (s : String) : Json
  | arr (elems : List Json) : Json
  | obj (fields : List (String × Json)) : Json

/-- Lookup of a key in a JSON object's field list (Python dict access,
insertion ordered, first binding wins). -/
def jLookup (k : String) : List (String × Json) → Option Json
  | [] => none
  | (k', v) :: rest => if k' = k then some v else jLookup k rest

/-- Python truthiness of a JSON-decoded value (used for `if not data:` etc.). -/
def pyTruthy : Json → Bool
  | .null => false
  | .bool b => b
  | .num n => n != 0
  | .str s => s ≠ ""
  | .arr es => !es.isEmpty
  | .obj fs => !fs.isEmpty

/-- The numeric view Python's `==` and `+` take of a JSON-decoded value:
ints are themselves, bools are 0/1, everything else is non-numeric. -/
def jsonNumVal : Json → Option Int
  | .num n => some n
  | .bool b => some (if b then 1 else 0)
  | _ => none

/-- Python `len` on a JSON-decoded value; non-sized values raise TypeError. -/
def pyLen : Json → Option Nat
  | .arr es => some es.length
  | .obj fs => some fs.length
  | .str s => some s.length
  | _ => none

/-- Exception taxonomy: the MethodAPIError family from errors.py, the httpx
exceptions that the client and translator dispatch on, and a catch-all for
any other Python exception (carrying its type name and text).  An
`httpStatusError` carries the response status, the result of parsing the
response body as JSON (`none` when `response.json()` raises), the value of
the `Retry-After` header, and the exception's own string form. -/
inductive Exc where
  | httpStatusError (status : Int) (body : Option Json)
      (retryAfterHeader : Option String) (text : String) : Exc
  | timeoutException (text : String) : Exc
  | connectError (text : String) : Exc
  | authenticationError (message : String) : Exc
  | rateLimitError (message : String) (retryAfter : Option Int) : Exc
  | validationError (message : String) : Exc
  | notFoundError (message : String) : Exc
  | permissionError (message : String) : Exc
  | methodAPIError (message : String) : Exc
  | otherError (typeName : String) (text : String) : Exc

/-- Membership in the MethodAPIError family (the `isinstance(e, MethodAPIError)`
check in client.py). -/
def isMethodAPIExc : Exc → Bool
  | .authenticationError _ => true
  | .rateLimitError _ _ => true
  | .validationError _ => true
  | .notFoundError _ => true
  | .permissionError _ => true
  | .methodAPIError _ => true
  | _ => false

/-- Upstream error text extraction in handle_api_error: parse the failing
response body as JSON and read `error.message`; any failure — body not JSON,
body not a dict, `error` value not a dict — degrades to the exception's own
string form (the bare `except Exception` around the extraction).  A present
`message` value of any JSON type is rendered by the enclosing f-string. -/
def extractErrorMessage (body : Option Json) (excText : String) : String :=
  match body with
  | some (.obj fields) =>
    match jLookup "error" fields with
    | some (.obj inner) =>
      match jLookup "message" inner with
      | some (.str m) => m
      | some _ => excText
      | none => excText
    | some _ => excText
    | none => excText
  | _ => excText

/-- handle_api_error from errors.py: translate any exception into an
actionable message.  Each branch mirrors the corresponding isinstance
branch of the source, string for string. -/
def handle_api_error (e : Exc) : String :=
  match e with
  | .httpStatusError status body retryAfterHeader text =>
    let errorMessage := extractErrorMessage body text
    if status = 400 then
      "Error: Validation failed - " ++ errorMessage ++ "\n" ++
      "Suggestion: Check that all required fields are provided and have valid values. " ++
      "Review the API documentation for parameter requirements."
    else if status = 401 then
      "Error: Authentication failed. Your API key or access token is invalid or expired.\n" ++
      "Suggestion: Check that METHOD_API_KEY is correctly set in your environment. " ++
      "If using OAuth2, ensure your token hasn't expired and refresh if needed."
    else if status = 403 then
      "Error: Permission denied - " ++ errorMessage ++ "\n" ++
      "Suggestion: Your account doesn't have permission to perform this operation. " ++
      "Check that you have the required role (e.g., Admin for API key creation) or " ++
      "that the resource belongs to your account."
    else if status = 404 then
      "Error: Resource not found - " ++ errorMessage ++ "\n" ++
      "Suggestion: Verify that the table name, record ID, or file ID is correct. " ++
      "Use list/query tools to find the correct identifier."
    else if status = 429 then
      let retryAfter := retryAfterHeader.getD "unknown"
      "Error: Rate limit exceeded (100 requests/minute or daily limit reached).\n" ++
      "Retry-After: " ++ retryAfter ++ " seconds\n" ++
      "Suggestion: Wait before making more requests. Method CRM limits: " ++
      "100 req/min per account, 5,000-25,000 daily depending on licenses."
    else if status = 500 then
      "Error: Method API server error occurred.\n" ++
      "Suggestion: This is a temporary server issue. Wait a moment and retry. " ++
      "If the problem persists, check Method CRM status page or contact support."
    else if status = 503 then
      "Error: Method API service temporarily unavailable.\n" ++
      "Suggestion: The API is undergoing maintenance or experiencing high load. " ++
      "Wait a few minutes and retry your request."
    else
      "Error: API request failed with status " ++ toString status ++ " - " ++ errorMessage
  | .timeoutException _ =>
    "Error: Request timed out while waiting for Method API response.\n" ++
    "Suggestion: The API might be slow or your network connection interrupted. " ++
    "Try again, or increase METHOD_REQUEST_TIMEOUT in your configuration."
  | .connectError _ =>
    "Error: Unable to connect to Method API.\n" ++
    "Suggestion: Check your internet connection and verify that METHOD_API_BASE_URL " ++
    "is correct (default: https://rest.method.me/api/v1/)."
  | .authenticationError message =>
    "Error: " ++ message ++ "\nSuggestion: Verify your authentication credentials."
  | .rateLimitError message retryAfter =>
    let retryMsg :=
      match retryAfter with
      | some n => if n = 0 then "" else " Retry after " ++ toString n ++ " seconds."
      | none => ""
    "Error: " ++ message ++ retryMsg ++ "\n" ++
    "Suggestion: Wait before making more requests to respect rate limits."
  | .validationError message =>
    "Error: " ++ message ++ "\nSuggestion: Check your input parameters and try again."
  | .notFoundError message =>
    "Error: " ++ message ++ "\nSuggestion: Verify the resource ID and try again."
  | .permissionError message =>
    "Error: " ++ message ++ "\nSuggestion: Check your account permissions."
  | .methodAPIError message =>
    "Error: " ++ message
  | .otherError typeName text =>
    "Error: Unexpected " ++ typeName ++ " occurred - " ++ text ++ "\n" ++
    "Suggestion: This is an unexpected error. Check your input parameters and " ++
    "ensure the Method API is accessible. If the problem persists, report this issue."

/-! ### Python scalar conversions -/

/-- Python `str.strip()` on a character list: whitespace removed from both
ends. -/
def pyStripList (cs : List Char) : List Char :=
  ((cs.dropWhile Char.isWhitespace).reverse.dropWhile Char.isWhitespace).reverse

/-- Python `str.strip()`. -/
def pyStrip (s : String) : String := String.mk (pyStripList s.toList)

/-- Digits of a decimal literal, rejecting empty or non-digit input
(the core of Python's `int(...)` which raises ValueError otherwise). -/
def decDigits? : List Char → Option Nat
  | [] => none
  | cs => cs.foldl (fun acc c =>
      match acc with
      | none => none
      | some n => if c.isDigit then some (n * 10 + (c.toNat - 48)) else none)
      (some 0)

/-- Python `int(s)`: surrounding whitespace stripped, optional sign, decimal
digits; `none` models the ValueError raised on anything else. -/
def pyInt? (s : String) : Option Int :=
  match pyStripList s.toList with
  | '+' :: rest => (decDigits? rest).map Int.ofNat
  | '-' :: rest => (decDigits? rest).map (fun n => -(n : Int))
  | cs => (decDigits? cs).map Int.ofNat

/-- Digits read as a pair (value, number of digits); empty gives (0, 0). -/
def fracDigits : List Char → Option (Nat × Nat)
  | cs => cs.foldl (fun acc c =>
      match acc with
      | none => none
      | some (n, k) => if c.isDigit then some (n * 10 + (c.toNat - 48), k + 1) else none)
      (some (0, 0))

/-- Python `float(s)` on plain decimal notation (optional sign, digits,
optional fraction); `none` models the ValueError on anything else.
Exponents/infinities are never produced by this repository's configuration. -/
def pyFloat? (s : String) : Option Rat :=
  let core : List Char → Option Rat := fun cs =>
    let parts := List.splitOn '.' cs
    match parts with
    | [intPart] =>
      (decDigits? intPart).map (fun n => (n : Rat))
    | [intPart, fracPart] =>
      if intPart.isEmpty && fracPart.isEmpty then none
      else
        match fracDigits intPart, fracDigits fracPart with
        | some (ni, _), some (nf, kf) => some ((ni : Rat) + (nf : Rat) / ((10 : Rat) ^ kf))
        | _, _ => none
    | _ => none
  match pyStripList s.toList with
  | '+' :: rest => core rest
  | '-' :: rest => (core rest).map Neg.neg
  | cs => core cs

/-- Python `s.rstrip("/")`: remove every trailing slash. -/
def rstripSlash (s : String) : String :=
  String.mk ((s.toList.reverse.dropWhile (· = '/')).reverse)

/-! ### JSON serialization (Python json.dumps)

`json.dumps` is standard-library code outside this repository; it is
reimplemented here following its documented behaviour with the defaults the
sources pass: `ensure_ascii` on, and either no indent (markdown cell
rendering) or `indent=2` (format_json_response). -/

/-- Lowercase hex digit. -/
def hexDigit (n : Nat) : Char :=
  if n < 10 then Char.ofNat (48 + n) else Char.ofNat (87 + n)

/-- Four lowercase hex digits, as in a JSON \u escape. -/
def hex4 (n : Nat) : String :=
  String.mk [hexDigit (n / 4096 % 16), hexDigit (n / 256 % 16),
             hexDigit (n / 16 % 16), hexDigit (n % 16)]

/-- JSON string escaping with ensure_ascii (Python's default): the two-char
escapes, \u00xx for other control characters, \uxxxx for non-ASCII. -/
def jsonEscapeChar (c : Char) : String :=
  if c = '"' then "\\\""
  else if c = '\\' then "\\\\"
  else if c = '\n' then "\\n"
  else if c = '\r' then "\\r"
  else if c = '\t' then "\\t"
  else if c.toNat = 8 then "\\b"
  else if c.toNat = 12 then "\\f"
  else if c.toNat < 32 || c.toNat > 127 then "\\u" ++ hex4 c.toNat
  else String.singleton c

/-- A JSON string literal for `s`. -/
def jsonQuote (s : String) : String :=
  "\"" ++ String.join (s.toList.map jsonEscapeChar) ++ "\""

/-- Atoms (everything but containers) serialize identically in both modes. -/
def dumpsAtom : Json → String
  | .null => "null"
  | .bool true => "true"
  | .bool false => "false"
  | .num n => toString n
  | .str s => jsonQuote s
  | .arr _ => ""
  | .obj _ => ""

mutual
/-- json.dumps with default separators (compact mode). -/
def dumpsCompact : Json → String
  | .arr es => "[" ++ dumpsCompactList es ++ "]"
  | .obj fs => "\x7b" ++ dumpsCompactObj fs ++ "\x7d"
  | j => dumpsAtom j

def dumpsCompactList : List Json → String
  | [] => ""
  | [e] => dumpsCompact e
  | e :: rest => dumpsCompact e ++ ", " ++ dumpsCompactList rest

def dumpsCompactObj : List (String × Json) → String
  | [] => ""
  | [(k, v)] => jsonQuote k ++ ": " ++ dumpsCompact v
  | (k, v) :: rest => jsonQuote k ++ ": " ++ dumpsCompact v ++ ", " ++ dumpsCompactObj rest
end

/-- The indentation prefix at nesting level `lvl` for indent=2. -/
def indentStr (lvl : Nat) : String :=
  String.mk (List.replicate (2 * lvl) ' ')

mutual
/-- json.dumps with indent=2. -/
def dumpsInd : Json → Nat → String
  | .arr [], _ => "[]"
  | .arr es, lvl =>
    "[\n" ++ dumpsIndList es (lvl + 1) ++ "\n" ++ indentStr lvl ++ "]"
  | .obj [], _ => "\x7b\x7d"
  | .obj fs, lvl =>
    "\x7b\n" ++ dumpsIndObj fs (lvl + 1) ++ "\n" ++ indentStr lvl ++ "\x7d"
  | j, _ => dumpsAtom j

def dumpsIndList : List Json → Nat → String
  | [], _ => ""
  | [e], lvl => indentStr lvl ++ dumpsInd e lvl
  | e :: rest, lvl =>
    indentStr lvl ++ dumpsInd e lvl ++ ",\n" ++ dumpsIndList rest lvl

def dumpsIndObj : List (String × Json) → Nat → String
  | [], _ => ""
  | [(k, v)], lvl => indentStr lvl ++ jsonQuote k ++ ": " ++ dumpsInd v lvl
  | (k, v) :: rest, lvl =>
    indentStr lvl ++ jsonQuote k ++ ": " ++ dumpsInd v lvl ++ ",\n" ++ dumpsIndObj rest lvl
end

mutual
/-- Python `repr` of a JSON-decoded value (quote escaping inside reprs is
not modelled; no verified property depends on it). -/
def pyReprJson : Json → String
  | .null => "None"
  | .bool true => "True"
  | .bool false => "False"
  | .num n => toString n
  | .str s => "'" ++ s ++ "'"
  | .arr es => "[" ++ pyReprList es ++ "]"
  | .obj fs => "\x7b" ++ pyReprObj fs ++ "\x7d"

def pyReprList : List Json → String
  | [] => ""
  | [e] => pyReprJson e
  | e :: rest => pyReprJson e ++ ", " ++ pyReprList rest

def pyReprObj : List (String × Json) → String
  | [] => ""
  | [(k, v)] => "'" ++ k ++ "': " ++ pyReprJson v
  | (k, v) :: rest => "'" ++ k ++ "': " ++ pyReprJson v ++ ", " ++ pyReprObj rest
end

/-- Python `str` of a JSON-decoded value (as interpolated by f-strings). -/
def pyStrOfJson : Json → String
  | .str s => s
  | j => pyReprJson j

/-! ### utils.py -/

/-- The pagination metadata dict built by format_pagination_info (utils.py).
Fields follow the annotated signature: total optional int, the rest ints. -/
structure PaginationInfo where
  total : Option Int
  count : Int
  offset : Int
  limit : Int
  has_more : Bool
  next_offset : Option Int

/-- format_pagination_info (utils.py): has_more from the exact total when
known, from the full-page heuristic otherwise; next_offset only when
has_more. -/
def format_pagination_info (total : Option Int) (count offset limit : Int) :
    PaginationInfo :=
  let has_more :=
    match total with
    | some t => decide (t > offset + count)
    | none => decide (count = limit)
  { total := total
    count := count
    offset := offset
    limit := limit
    has_more := has_more
    next_offset := if has_more then some (offset + count) else none }

/-- The response dict built by format_json_response (utils.py) before
json.dumps: success flag, message only when truthy (non-empty), and the
payload under "error" when it is a dict containing an "error" key, under
"data" otherwise. -/
def format_json_response_obj (data : Json) (success : Bool)
    (message : Option String) : List (String × Json) :=
  let base := [("success", Json.bool success)]
  let withMsg :=
    match message with
    | some m => if m = "" then base else base ++ [("message", Json.str m)]
    | none => base
  match data with
  | .obj fields =>
    match jLookup "error" fields with
    | some errVal => withMsg ++ [("error", errVal)]
    | none => withMsg ++ [("data", data)]
  | _ => withMsg ++ [("data", data)]

/-- format_json_response (utils.py): the envelope serialized with indent=2. -/
def format_json_response (data : Json) (success : Bool)
    (message : Option String) : String :=
  dumpsInd (.obj (format_json_response_obj data success message)) 0

/-- Cell rendering in format_markdown_table: `record.get(col, "")`, then
None to "", bools to check marks, containers to compact JSON, else str. -/
def mdCellValue (v : Option Json) : String :=
  match v with
  | none => ""
  | some .null => ""
  | some (.bool b) => if b then "✓" else "✗"
  | some (.arr es) => dumpsCompact (.arr es)
  | some (.obj fs) => dumpsCompact (.obj fs)
  | some (.num n) => toString n
  | some (.str s) => s

/-- Pipe escaping in table cells: `value.replace("|", "\\|")`. -/
def escapePipes (s : String) : String :=
  String.join (s.toList.map (fun c => if c = '|' then "\\|" else String.singleton c))

/-- One table row; a non-dict record raises AttributeError at
`record.get` in the source. -/
def mdRow (columns : List String) (record : Json) : Except Exc String :=
  match record with
  | .obj fields =>
    .ok ("| " ++ String.intercalate " | "
          (columns.map (fun c => escapePipes (mdCellValue (jLookup c fields)))) ++ " |")
  | _ => .error (.otherError "AttributeError" "object has no attribute 'get'")

/-- All table rows, failing at the first non-dict record. -/
def mdRows (columns : List String) : List Json → Except Exc (List String)
  | [] => .ok []
  | r :: rest => do
    let row ← mdRow columns r
    let others ← mdRows columns rest
    .ok (row :: others)

/-- format_markdown_table (utils.py) over a dynamically typed record list:
empty/falsy data short-circuits, columns default to the first record's keys,
a title contributes a heading, and each record becomes one escaped row.
Dynamically ill-typed data raises as the interpreter would. -/
def format_markdown_table (data : Json) (columns : Option (List String))
    (title : Option String) : Except Exc String :=
  if pyTruthy data = false then .ok "No records found."
  else
    match data with
    | .arr records =>
      match records with
      | [] => .ok "No records found."
      | first :: _ =>
        let cols? : Except Exc (List String) :=
          match columns with
          | some cs => if cs.isEmpty then
              match first with
              | .obj fields => .ok (fields.map Prod.fst)
              | _ => .error (.otherError "AttributeError" "object has no attribute 'keys'")
            else .ok cs
          | none =>
            match first with
            | .obj fields => .ok (fields.map Prod.fst)
            | _ => .error (.otherError "AttributeError" "object has no attribute 'keys'")
        do
          let cols ← cols?
          let rows ← mdRows cols records
          let titleLines :=
            match title with
            | some t => ["## " ++ t, ""]
            | none => []
          let header := "| " ++ String.intercalate " | " cols ++ " |"
          let sep := "| " ++ String.intercalate " | " (cols.map (fun _ => "---")) ++ " |"
          .ok (String.intercalate "\n" (titleLines ++ [header, sep] ++ rows))
    | _ => .error (.otherError "TypeError" "object is not subscriptable")

/-! ### auth.py -/

/-- The environment variables the auth scan reads (value present iff the
variable is set; Python truthiness makes a set-but-empty variable falsy). -/
structure AuthEnv where
  apiKey : Option String
  clientId : Option String
  clientSecret : Option String
  redirectUri : Option String
  authorizeUrl : Option String
  tokenUrl : Option String

/-- The auth strategy selected by AuthManager, with its stored
configuration. -/
inductive AuthSelection where
  | apiKey (key : String) : AuthSelection
  | oauth2AuthorizationCode
      (clientId clientSecret redirectUri authorizeUrl tokenUrl : String) : AuthSelection
  | oauth2ClientCredentials (clientId clientSecret tokenUrl : String) : AuthSelection
  | oauth2Implicit (clientId authorizeUrl : String) : AuthSelection

/-- Python truthiness of an os.getenv result. -/
def envTruthy : Option String → Bool
  | some s => s != ""
  | none => false

/-- os.getenv with a default: the default applies only when unset. -/
def envStr (v : Option String) (d : String) : String := v.getD d

def defaultAuthorizeUrl : String := "https://rest.method.me/oauth/authorize"

def defaultTokenUrl : String := "https://rest.method.me/oauth/token"

/-- APIKeyAuth.__init__: empty or whitespace-only keys are rejected, the
stored key is trimmed. -/
def apiKeyAuthInit (key : String) : Except Exc String :=
  if key = "" || pyStrip key = "" then
    .error (.authenticationError "API key cannot be empty")
  else .ok (pyStrip key)

/-- AuthManager.__init__ (auth.py): the credential scan in source order —
API key, then OAuth2 authorization-code (id+secret+redirect), then
client-credentials (id+secret), then implicit (id), else failure. -/
def authManagerInit (env : AuthEnv) : Except Exc AuthSelection :=
  if envTruthy env.apiKey then
    (apiKeyAuthInit (env.apiKey.getD "")).map .apiKey
  else if envTruthy env.clientId && envTruthy env.clientSecret
      && envTruthy env.redirectUri then
    .ok (.oauth2AuthorizationCode (env.clientId.getD "") (env.clientSecret.getD "")
      (env.redirectUri.getD "")
      (envStr env.authorizeUrl defaultAuthorizeUrl) (envStr env.tokenUrl defaultTokenUrl))
  else if envTruthy env.clientId && envTruthy env.clientSecret then
    .ok (.oauth2ClientCredentials (env.clientId.getD "") (env.clientSecret.getD "")
      (envStr env.tokenUrl defaultTokenUrl))
  else if envTruthy env.clientId then
    .ok (.oauth2Implicit (env.clientId.getD "")
      (envStr env.authorizeUrl defaultAuthorizeUrl))
  else
    .error (.authenticationError
      ("No authentication credentials found. Please set one of:\n" ++
       "1. METHOD_API_KEY for API key authentication (recommended)\n" ++
       "2. METHOD_CLIENT_ID and METHOD_CLIENT_SECRET for OAuth2 (coming soon)\n" ++
       "See .env.example for configuration details."))

/-- is_valid across strategies: a stored API key is syntactically valid when
non-empty; every OAuth2 placeholder reports invalid. -/
def authSelectionIsValid : AuthSelection → Bool
  | .apiKey k => k != ""
  | _ => false

/-! ### client.py -/

/-- The environment variables MethodAPIClient.__init__ reads. -/
structure ClientEnv where
  apiBaseUrl : Option String
  requestTimeout : Option String
  maxRetries : Option String

/-- Configuration state after MethodAPIClient.__init__. -/
structure ResolvedClient where
  base_url : String
  timeout : Rat
  max_retries : Int
  auth : AuthSelection

def defaultBaseUrl : String := "https://rest.method.me/api/v1/"

/-- Line 54-56 of client.py: `base_url or
os.getenv("METHOD_API_BASE_URL", default).rstrip("/")` — the explicit
argument verbatim when truthy, else the environment value or default with
trailing slashes stripped. -/
def resolveBaseUrl (arg : Option String) (envVal : Option String) : String :=
  match arg with
  | some s => if s = "" then rstripSlash (envStr envVal defaultBaseUrl) else s
  | none => rstripSlash (envStr envVal defaultBaseUrl)

/-- Line 59 of client.py: `float(os.getenv("METHOD_REQUEST_TIMEOUT",
timeout))` — the environment value wins whenever the variable is set; the
argument is only the getenv default.  An unparseable value raises. -/
def resolveTimeout (envVal : Option String) (timeoutArg : Rat) : Except Exc Rat :=
  match envVal with
  | some s =>
    match pyFloat? s with
    | some v => .ok v
    | none => .error
        (.otherError "ValueError" ("could not convert string to float: '" ++ s ++ "'"))
  | none => .ok timeoutArg

/-- Line 60 of client.py: `int(os.getenv("METHOD_MAX_RETRIES",
max_retries))` — same environment-first shape as the timeout. -/
def resolveMaxRetries (envVal : Option String) (arg : Int) : Except Exc Int :=
  match envVal with
  | some s =>
    match pyInt? s with
    | some v => .ok v
    | none => .error
        (.otherError "ValueError" ("invalid literal for int() with base 10: '" ++ s ++ "'"))
  | none => .ok arg

/-- Line 58 of client.py: `auth_manager or AuthManager()` — an explicit
manager is used as passed, otherwise the environment scan runs. -/
def clientAuthSel (authArg : Option AuthSelection) (aenv : AuthEnv) :
    Except Exc AuthSelection :=
  match authArg with
  | some a => .ok a
  | none => authManagerInit aenv

/-- MethodAPIClient.__init__ (client.py): resolve configuration, construct
the auth manager when none is passed, and fail construction when the
selected auth strategy reports invalid. -/
def clientInit (cenv : ClientEnv) (baseUrlArg : Option String)
    (authArg : Option AuthSelection) (aenv : AuthEnv)
    (timeoutArg : Rat) (maxRetriesArg : Int) : Except Exc ResolvedClient := do
  let base_url := resolveBaseUrl baseUrlArg cenv.apiBaseUrl
  let authSel ← clientAuthSel authArg aenv
  let timeout ← resolveTimeout cenv.requestTimeout timeoutArg
  let max_retries ← resolveMaxRetries cenv.maxRetries maxRetriesArg
  if authSelectionIsValid authSel then
    Except.ok { base_url := base_url, timeout := timeout,
                max_retries := max_retries, auth := authSel }
  else
    Except.error (.authenticationError "Authentication is not valid")

/-- An HTTP response as the request handler sees it: status, the
`Retry-After` header, the result of `response.json()` (`none` when the body
is not JSON), and the string form of the HTTPStatusError it would raise. -/
structure HttpResponse where
  status : Int
  retryAfter : Option String
  body : Option Json
  text : String

/-- The no-content success marker returned for HTTP 204. -/
def successMarker : Json :=
  .obj [("success", .bool true), ("message", .str "Operation completed successfully")]

/-- The status dispatch inside MethodAPIClient.request's try block: 429
raises RateLimitError (retry_after from the header when truthy, via
Python's `int`, whose failure raises ValueError), other error statuses
raise the HTTPStatusError from raise_for_status, 204 returns the marker
without touching the body, anything else returns the parsed JSON body
(JSONDecodeError when it is not JSON). -/
def statusHandle (r : HttpResponse) : Except Exc Json :=
  if r.status = 429 then
    match r.retryAfter with
    | some h =>
      if h = "" then .error (.rateLimitError "Rate limit exceeded" none)
      else
        match pyInt? h with
        | some n => .error (.rateLimitError "Rate limit exceeded" (some n))
        | none => .error
            (.otherError "ValueError" ("invalid literal for int() with base 10: '" ++ h ++ "'"))
    | none => .error (.rateLimitError "Rate limit exceeded" none)
  else if 400 ≤ r.status ∧ r.status < 600 then
    .error (.httpStatusError r.status r.body r.retryAfter r.text)
  else if r.status = 204 then
    .ok successMarker
  else
    match r.body with
    | some j => .ok j
    | none => .error (.otherError "JSONDecodeError" "Expecting value")

/-- One attempt's transport-level outcome: a response, or an exception out
of the HTTP machinery. -/
inductive TransportOutcome where
  | response (r : HttpResponse) : TransportOutcome
  | connectError (text : String) : TransportOutcome
  | timeout (text : String) : TransportOutcome
  | raised (e : Exc) : TransportOutcome

/-- The body of request's try block for one attempt. -/
def requestBody : TransportOutcome → Except Exc Json
  | .response r => statusHandle r
  | .connectError t => .error (.connectError t)
  | .timeout t => .error (.timeoutException t)
  | .raised e => .error e

/-- The except clause of request: MethodAPIError family members pass
through unchanged, every other exception is re-raised as
`MethodAPIError(handle_api_error(e))`. -/
def requestWrap : Except Exc Json → Except Exc Json
  | .ok v => .ok v
  | .error e =>
    if isMethodAPIExc e then .error e
    else .error (.methodAPIError (handle_api_error e))

/-- One full invocation of the decorated coroutine's body. -/
def requestAttempt (o : TransportOutcome) : Except Exc Json :=
  requestWrap (requestBody o)

/-- tenacity's retry predicate:
`retry_if_exception_type((httpx.TimeoutException, httpx.ConnectError))`. -/
def isRetryableExc : Exc → Bool
  | .timeoutException _ => true
  | .connectError _ => true
  | _ => false

/-- tenacity's driver with `reraise=True`: run the attempt; on a retryable
exception retry while budget remains, otherwise re-raise the exception
unchanged.  Returns the result together with the number of attempts made. -/
def retryCall (f : Nat → Except Exc Json) : Nat → Nat → Except Exc Json × Nat
  | 0, idx => (f idx, idx + 1)
  | n + 1, idx =>
    match f idx with
    | .ok v => (.ok v, idx + 1)
    | .error e =>
      if isRetryableExc e then retryCall f n (idx + 1) else (.error e, idx + 1)

/-- MethodAPIClient.request under `stop_after_attempt(3)`: at most 3
attempts (2 retries), driven by the per-attempt transport outcomes. -/
def request (transport : Nat → TransportOutcome) : Except Exc Json × Nat :=
  retryCall (fun i => requestAttempt (transport i)) 2 0

/-! ### tools/tables.py -/

/-- The per-call output format selector. -/
inductive ResponseFormat where
  | json : ResponseFormat
  | markdown : ResponseFormat

/-- Validated input of method_tables_query (models.TableQueryInput). -/
structure TableQueryInput where
  table : String
  filter : Option String
  select : Option String
  top : Option Int
  skip : Option Int
  orderby : Option String
  expand : Option String
  aggregate : Option String
  response_format : ResponseFormat

/-- Python `x or d` on an optional integer (0 and None are both falsy). -/
def pyOrInt (v : Option Int) (d : Int) : Int :=
  match v with
  | some n => if n = 0 then d else n
  | none => d

/-- format_pagination_info as invoked dynamically from tables.py, where
`count` is whatever the response's "count" field held.  With a known total,
`total > offset + count` adds the count, raising TypeError when it is not
numeric; with an unknown total, Python's `==` makes a non-numeric count
compare unequal to the limit and `offset + count` is only evaluated under
has_more. -/
def format_pagination_info_dyn (total : Option Int) (count : Json)
    (offset limit : Int) : Except Exc (List (String × Json)) :=
  match total with
  | some t =>
    match jsonNumVal count with
    | some c =>
      let hm := decide (t > offset + c)
      .ok [("total", .num t), ("count", count), ("offset", .num offset),
           ("limit", .num limit), ("has_more", .bool hm),
           ("next_offset", if hm then .num (offset + c) else .null)]
    | none => .error (.otherError "TypeError" "unsupported operand type(s) for +")
  | none =>
    let hm := jsonNumVal count == some limit
    .ok [("total", .null), ("count", count), ("offset", .num offset),
         ("limit", .num limit), ("has_more", .bool hm),
         ("next_offset", if hm then .num (offset + (jsonNumVal count).getD 0) else .null)]

/-- Python dict assignment `d[k] = v`: replace in place when present,
append otherwise. -/
def dictSet (kvs : List (String × Json)) (k : String) (v : Json) :
    List (String × Json) :=
  if (jLookup k kvs).isSome then
    kvs.map (fun kv => if kv.1 = k then (kv.1, v) else kv)
  else kvs ++ [(k, v)]

/-- The pagination metadata embedded in a method_tables_query result: the
heuristic format_pagination_info dict with total unknown, then the
`pagination["has_more"] = next_link is not None` override and the appended
next_link (tools/tables.py lines 139-156). -/
def tablesQueryPagination (count : Json) (next_link : Option Json)
    (skip top : Option Int) : Except Exc (List (String × Json)) := do
  let pag0 ← format_pagination_info_dyn none count (pyOrInt skip 0) (pyOrInt top 10)
  pure (dictSet (dictSet pag0 "has_more" (.bool next_link.isSome))
    "next_link" (next_link.getD .null))

/-- Environment of one method_tables_query call: the combined outcome of
`get_client()` and `client.get(endpoint, params)` (an exception from either
surfaces identically inside the handler's try block). -/
structure TablesEnv where
  clientGet : Except Exc Json

/-- The try-block body of method_tables_query (tools/tables.py): request,
record/count/nextLink extraction, heuristic pagination with total unknown,
the nextLink override of has_more, then JSON or Markdown rendering. -/
def method_tables_query_body (p : TableQueryInput) (env : TablesEnv) :
    Except Exc String := do
  let response ← env.clientGet
  let fieldsE : Except Exc (List (String × Json)) :=
    match response with
    | .obj fs => .ok fs
    | _ => .error (.otherError "AttributeError" "object has no attribute 'get'")
  let fields ← fieldsE
  let records := (jLookup "value" fields).getD (.arr [])
  let countE : Except Exc Json :=
    match jLookup "count" fields with
    | some c => .ok c
    | none =>
      match pyLen records with
      | some n => .ok (.num n)
      | none => .error (.otherError "TypeError" "object has no len()")
  let count ← countE
  let next_link :=
    match jLookup "nextLink" fields with
    | some .null => none
    | some v => some v
    | none => none
  let has_more := next_link.isSome
  let pag ← tablesQueryPagination count next_link p.skip p.top
  match p.response_format with
  | .markdown =>
    if pyTruthy records = false then
      pure ("# Query Results: " ++ p.table ++ "\n\nNo records found matching the query.")
    else do
      let title := "Query Results: " ++ p.table ++ " (" ++
        pyStrOfJson ((jLookup "count" pag).getD .null) ++ " records)"
      let tableMd ← format_markdown_table records none (some title)
      let lenE : Except Exc Int :=
        match pyLen records with
        | some n => .ok n
        | none => .error (.otherError "TypeError" "object has no len()")
      let len ← lenE
      let startRecord := pyOrInt p.skip 0 + 1
      let endRecord := pyOrInt p.skip 0 + len
      let footerBase := "\n\n**Pagination**: Showing records " ++
        toString startRecord ++ "-" ++ toString endRecord
      let footer :=
        if has_more then
          footerBase ++ " | More records available | Next offset: " ++
            pyStrOfJson ((jLookup "next_offset" pag).getD .null)
        else footerBase ++ " | No more records"
      pure (tableMd ++ footer)
  | .json =>
    pure (format_json_response (.obj (pag ++ [("records", records)])) true none)

/-- The tool boundary of method_tables_query: the surrounding
try/except returns handle_api_error's message on any exception. -/
def method_tables_query (p : TableQueryInput) (env : TablesEnv) : String :=
  match method_tables_query_body p env with
  | .ok s => s
  | .error e => handle_api_error e

/-! ### tools/files.py -/

/-- Validated input of method_files_upload (models.FileUploadInput). -/
structure FileUploadInput where
  filename : String
  content : String
  link_table : String
  link_record_id : String
  description : Option String

/-- Environment of one method_files_upload call: the outcome of the lazy
`get_client()` construction, the outcome of `base64.b64decode(content)`
(standard-library behaviour outside this repository, supplied as data:
either the error text of the raised exception or the decoded byte count),
and the outcome of the direct httpx multipart POST when it is reached. -/
structure UploadEnv where
  clientInit : Except Exc Unit
  decodeResult : Except String Nat
  postResult : Except Exc HttpResponse

/-- The 50 MB decoded-size ceiling (`50 * 1024 * 1024` in the source). -/
def maxUploadSize : Nat := 50 * 1024 * 1024

/-- The try-block body of method_files_upload (tools/files.py), paired with
the number of HTTP requests issued.  Decode failures and the decoded-size
ceiling return early error envelopes before any network traffic; then the
multipart POST is made, a 413 maps to a quota envelope, other error
statuses raise, and a parsed body is reshaped into the file metadata
envelope. -/
def method_files_upload_core (p : FileUploadInput) (env : UploadEnv) :
    Except Exc String × Nat :=
  match env.clientInit with
  | .error e => (.error e, 0)
  | .ok () =>
    match env.decodeResult with
    | .error t =>
      (.ok (format_json_response
        (.obj [("error", .str ("Invalid base64 content: " ++ t))]) false none), 0)
    | .ok fileSize =>
      if fileSize > maxUploadSize then
        (.ok (format_json_response
          (.obj [("error", .str ("File size (" ++ toString fileSize ++
            " bytes) exceeds 50MB limit (" ++ toString maxUploadSize ++ " bytes)"))])
          false none), 0)
      else
        let ridResult : Except Exc (Option Int) :=
          if p.link_record_id = "" then .ok none
          else
            match pyInt? p.link_record_id with
            | some n => .ok (some n)
            | none => .error (.otherError "ValueError"
                ("invalid literal for int() with base 10: '" ++ p.link_record_id ++ "'"))
        match ridResult with
        | .error e => (.error e, 0)
        | .ok _ =>
          match env.postResult with
          | .error e => (.error e, 1)
          | .ok r =>
            if r.status = 413 then
              (.ok (format_json_response
                (.obj [("error",
                  .str "File size exceeds 50MB limit or storage quota (10GB) exceeded")])
                false none), 1)
            else if 400 ≤ r.status ∧ r.status < 600 then
              (.error (.httpStatusError r.status r.body r.retryAfter r.text), 1)
            else
              match r.body with
              | some (.obj rf) =>
                let g := fun k => (jLookup k rf).getD .null
                let responseData : Json := .obj
                  [("FileId", g "id"), ("Filename", g "filename"),
                   ("FileExtension", g "fileExtension"), ("Size", g "size"),
                   ("LinkedTable", .str p.link_table),
                   ("LinkedRecordId", .str p.link_record_id),
                   ("CreatedBy", g "createdBy"), ("UploadedAt", g "createdDate")]
                (.ok (format_json_response responseData true
                  (some ("File '" ++ p.filename ++ "' uploaded successfully"))), 1)
              | some _ =>
                (.error (.otherError "AttributeError" "object has no attribute 'get'"), 1)
              | none =>
                (.error (.otherError "JSONDecodeError" "Expecting value"), 1)

/-- The tool boundary of method_files_upload: any exception out of the body
becomes handle_api_error's message; the request count is unchanged. -/
def method_files_upload (p : FileUploadInput) (env : UploadEnv) : String × Nat :=
  match method_files_upload_core p env with
  | (.ok s, n) => (s, n)
  | (.error e, n) => (handle_api_error e, n)

/-- Whether a request outcome is a raised RateLimitError. -/
def isRateLimitResult : Except Exc Json → Bool
  | .error (.rateLimitError _ _) => true
  | _ => false

/-! ### Shared lemmas -/

/-- Every translator output literally starts with "Error". -/
theorem handle_api_error_head (e : Exc) :
    ∃ r, handle_api_error e = "Error" ++ r := by
  cases e with
  | httpStatusError status body retryAfterHeader text =>
    simp only [handle_api_error]
    by_cases h400 : status = 400
    · rw [if_pos h400,
        show ("Error: Validation failed - " : String) =
          "Error" ++ ": Validation failed - " from rfl]
      simp only [String.append_assoc]
      exact ⟨_, rfl⟩
    · rw [if_neg h400]
      by_cases h401 : status = 401
      · rw [if_pos h401]
        exact ⟨_, rfl⟩
      · rw [if_neg h401]
        by_cases h403 : status = 403
        · rw [if_pos h403,
            show ("Error: Permission denied - " : String) =
              "Error" ++ ": Permission denied - " from rfl]
          simp only [String.append_assoc]
          exact ⟨_, rfl⟩
        · rw [if_neg h403]
          by_cases h404 : status = 404
          · rw [if_pos h404,
              show ("Error: Resource not found - " : String) =
                "Error" ++ ": Resource not found - " from rfl]
            simp only [String.append_assoc]
            exact ⟨_, rfl⟩
          · rw [if_neg h404]
            by_cases h429 : status = 429
            · rw [if_pos h429,
                show
                  ("Error: Rate limit exceeded (100 requests/minute or daily limit reached).\n" :
                    String) =
                  "Error" ++
                    ": Rate limit exceeded (100 requests/minute or daily limit reached).\n"
                  from rfl]
              simp only [String.append_assoc]
              exact ⟨_, rfl⟩
            · rw [if_neg h429]
              by_cases h500 : status = 500
              · rw [if_pos h500]
                exact ⟨_, rfl⟩
              · rw [if_neg h500]
                by_cases h503 : status = 503
                · rw [if_pos h503]
                  exact ⟨_, rfl⟩
                · rw [if_neg h503,
                    show ("Error: API request failed with status " : String) =
                      "Error" ++ ": API request failed with status " from rfl]
                  simp only [String.append_assoc]
                  exact ⟨_, rfl⟩
  | timeoutException text => exact ⟨_, rfl⟩
  | connectError text => exact ⟨_, rfl⟩
  | authenticationError message =>
    simp only [handle_api_error]
    rw [show ("Error: " : String) = "Error" ++ ": " from rfl]
    simp only [String.append_assoc]
    exact ⟨_, rfl⟩
  | rateLimitError message retryAfter =>
    simp only [handle_api_error]
    rw [show ("Error: " : String) = "Error" ++ ": " from rfl]
    simp only [String.append_assoc]
    exact ⟨_, rfl⟩
  | validationError message =>
    simp only [handle_api_error]
    rw [show ("Error: " : String) = "Error" ++ ": " from rfl]
    simp only [String.append_assoc]
    exact ⟨_, rfl⟩
  | notFoundError message =>
    simp only [handle_api_error]
    rw [show ("Error: " : String) = "Error" ++ ": " from rfl]
    simp only [String.append_assoc]
    exact ⟨_, rfl⟩
  | permissionError message =>
    simp only [handle_api_error]
    rw [show ("Error: " : String) = "Error" ++ ": " from rfl]
    simp only [String.append_assoc]
    exact ⟨_, rfl⟩
  | methodAPIError message =>
    simp only [handle_api_error]
    rw [show ("Error: " : String) = "Error" ++ ": " from rfl]
    simp only [String.append_assoc]
    exact ⟨_, rfl⟩
  | otherError typeName text =>
    simp only [handle_api_error]
    rw [show ("Error: Unexpected " : String) = "Error" ++ ": Unexpected " from rfl]
    simp only [String.append_assoc]
    exact ⟨_, rfl⟩

/-- A string headed by "Error" is non-empty. -/
theorem error_append_ne_empty (s : String) : ("Error" ++ s) ≠ "" := by
  intro h
  have hd := congrArg String.data h
  rw [String.data_append] at hd
  simp at hd

/-- C4: The error translator is total: for every exception value, including
arbitrary/unrecognized exception types and exceptions whose attached
response body is malformed JSON or has an unexpected shape, translating it
never raises (it is a total function of the exception) and always returns a
non-empty string containing the word "Error". -/
theorem C4_error_translator_total (e : Exc) :
    handle_api_error e ≠ "" ∧
    ∃ pre post, handle_api_error e = pre ++ "Error" ++ post := by
  obtain ⟨r, hr⟩ := handle_api_error_head e
  refine ⟨?_, "", r, ?_⟩
  · rw [hr]; exact error_append_ne_empty r
  · rw [hr]; rfl

/-- C2: For every pagination input (total, count, offset, limit): when total
is known, has_more equals (total > offset + count); when total is unknown,
has_more equals (count == limit), i.e. true for a full page and false for a
partial page; and in both cases next_offset equals offset + count exactly
when has_more is true, else it is absent. -/
theorem C2_pagination_formatter (total : Option Int) (count offset limit : Int) :
    (∀ t, total = some t →
      ((format_pagination_info total count offset limit).has_more = true ↔
        t > offset + count)) ∧
    (total = none →
      ((format_pagination_info total count offset limit).has_more = true ↔
        count = limit)) ∧
    ((format_pagination_info total count offset limit).next_offset =
      if (format_pagination_info total count offset limit).has_more then
        some (offset + count) else none) := by
  refine ⟨?_, ?_, ?_⟩
  · intro t ht
    subst ht
    simp [format_pagination_info]
  · intro ht
    subst ht
    simp [format_pagination_info]
  · cases total <;> simp [format_pagination_info]

/-- Witness for C2 at concrete inputs: total 10, count 3, offset 2, limit 5
(known total), and total unknown with a full page of 4. -/
theorem C2_pagination_formatter_witness :
    ((format_pagination_info (some 10) 3 2 5).has_more = true ↔ (10 : Int) > 2 + 3) ∧
    ((format_pagination_info none 4 0 4).has_more = true ↔ (4 : Int) = 4) ∧
    ((format_pagination_info (some 10) 3 2 5).next_offset =
      if (format_pagination_info (some 10) 3 2 5).has_more then
        some ((2 : Int) + 3) else none) :=
  ⟨(C2_pagination_formatter (some 10) 3 2 5).1 10 rfl,
   (C2_pagination_formatter none 4 0 4).2.1 rfl,
   (C2_pagination_formatter (some 10) 3 2 5).2.2⟩

/-- C7 counterexample: a table-query response with one record (a partial
page against limit 10) and a nextLink present.  The heuristic sets
has_more false and next_offset null; the nextLink override flips has_more
to true but leaves next_offset null, so the exposed pagination metadata has
has_more true with next_offset absent — the claimed iff-invariant fails. -/
theorem C7_counterexample :
    (tablesQueryPagination (Json.num 1) (some (Json.str "https://rest.method.me/api/v1/tables/Customer?page=2"))
        (some 0) (some 10)).map
      (fun pag => (jLookup "has_more" pag, jLookup "next_offset" pag)) =
    Except.ok (some (Json.bool true), some Json.null) := by
  rfl

/-- C7 amended: the invariant "next_offset is set iff has_more" holds for
every PaginationInfo produced by format_pagination_info; it does not
survive the next-link override applied to the metadata embedded in the
table-query result (see the counterexample). -/
theorem C7_formatter_invariant (total : Option Int) (count offset limit : Int) :
    (format_pagination_info total count offset limit).next_offset.isSome =
      (format_pagination_info total count offset limit).has_more := by
  cases total <;> simp only [format_pagination_info] <;> split <;> simp_all

/-- C6 evaluated at the failing input: with METHOD_CLIENT_ID,
METHOD_CLIENT_SECRET and METHOD_REDIRECT_URI all set and no METHOD_API_KEY,
AuthManager.__init__ selects the OAuth2 authorization-code strategy — not
the client-credentials strategy required by the claimed precedence (and by
the constructor's own docstring, which lists client-credentials as
priority 2 and authorization-code as priority 3). -/
theorem C6_code_bug_precedence :
    authManagerInit
      { apiKey := none, clientId := some "client-id",
        clientSecret := some "client-secret",
        redirectUri := some "https://example.com/callback",
        authorizeUrl := none, tokenUrl := none } =
      Except.ok (.oauth2AuthorizationCode "client-id" "client-secret"
        "https://example.com/callback" defaultAuthorizeUrl defaultTokenUrl) ∧
    authManagerInit
      { apiKey := none, clientId := some "client-id",
        clientSecret := some "client-secret",
        redirectUri := some "https://example.com/callback",
        authorizeUrl := none, tokenUrl := none } ≠
      Except.ok (.oauth2ClientCredentials "client-id" "client-secret" defaultTokenUrl) := by
  refine ⟨rfl, ?_⟩
  intro h
  rw [show authManagerInit
      { apiKey := none, clientId := some "client-id",
        clientSecret := some "client-secret",
        redirectUri := some "https://example.com/callback",
        authorizeUrl := none, tokenUrl := none } =
      Except.ok (.oauth2AuthorizationCode "client-id" "client-secret"
        "https://example.com/callback" defaultAuthorizeUrl defaultTokenUrl) from rfl] at h
  simp at h

/-- C9 counterexample: with METHOD_REQUEST_TIMEOUT set to "5" and an
explicit timeout argument of 60, the constructed client's timeout is 5 —
the environment variable wins over the explicit argument, contradicting
the claimed argument-first priority. -/
theorem C9_counterexample :
    (clientInit
        { apiBaseUrl := none, requestTimeout := some "5", maxRetries := none }
        none (some (.apiKey "k"))
        { apiKey := none, clientId := none, clientSecret := none,
          redirectUri := none, authorizeUrl := none, tokenUrl := none }
        60 3).map (fun c => c.timeout) =
      Except.ok 5 ∧ (5 : Rat) ≠ 60 := by
  constructor
  · rfl
  · norm_num

/-- A successful construction carries exactly the resolver outputs. -/
theorem clientInit_ok_fields (cenv : ClientEnv) (baseUrlArg : Option String)
    (authArg : Option AuthSelection) (aenv : AuthEnv) (timeoutArg : Rat)
    (maxRetriesArg : Int) (c : ResolvedClient)
    (hc : clientInit cenv baseUrlArg authArg aenv timeoutArg maxRetriesArg =
      Except.ok c) :
    c.base_url = resolveBaseUrl baseUrlArg cenv.apiBaseUrl ∧
    resolveTimeout cenv.requestTimeout timeoutArg = Except.ok c.timeout ∧
    resolveMaxRetries cenv.maxRetries maxRetriesArg = Except.ok c.max_retries := by
  simp only [clientInit] at hc
  cases hae : clientAuthSel authArg aenv with
  | error e => rw [hae] at hc; simp [bind, Except.bind] at hc
  | ok a =>
    rw [hae] at hc
    cases ht : resolveTimeout cenv.requestTimeout timeoutArg with
    | error e => rw [ht] at hc; simp [bind, Except.bind] at hc
    | ok t =>
      rw [ht] at hc
      cases hm : resolveMaxRetries cenv.maxRetries maxRetriesArg with
      | error e => rw [hm] at hc; simp [bind, Except.bind] at hc
      | ok m =>
        rw [hm] at hc
        simp only [bind, Except.bind] at hc
        split at hc
        · rw [Except.ok.injEq] at hc
          subst hc
          exact ⟨rfl, rfl, rfl⟩
        · simp at hc

/-- C9 amended: at construction the base URL is resolved argument-first
(an explicit non-empty argument is used verbatim — trailing-slash stripping
applies only to the environment/default value), while the timeout and the
max-retries count are resolved environment-first: the environment variable,
when set, overrides the explicit argument, and the explicit argument
(defaults 30s and 3) applies only when the variable is unset. -/
theorem C9_construction_resolution (cenv : ClientEnv) (baseUrlArg : Option String)
    (authArg : Option AuthSelection) (aenv : AuthEnv) (timeoutArg : Rat)
    (maxRetriesArg : Int) (c : ResolvedClient)
    (hc : clientInit cenv baseUrlArg authArg aenv timeoutArg maxRetriesArg =
      Except.ok c) :
    (∀ s, baseUrlArg = some s → s ≠ "" → c.base_url = s) ∧
    (baseUrlArg = none →
      c.base_url = rstripSlash (envStr cenv.apiBaseUrl defaultBaseUrl)) ∧
    (cenv.requestTimeout = none → c.timeout = timeoutArg) ∧
    (∀ s v, cenv.requestTimeout = some s → pyFloat? s = some v → c.timeout = v) ∧
    (cenv.maxRetries = none → c.max_retries = maxRetriesArg) ∧
    (∀ s v, cenv.maxRetries = some s → pyInt? s = some v → c.max_retries = v) := by
  obtain ⟨hbase, htime, hretr⟩ :=
    clientInit_ok_fields cenv baseUrlArg authArg aenv timeoutArg maxRetriesArg c hc
  refine ⟨?_, ?_, ?_, ?_, ?_, ?_⟩
  · intro s hs hne
    rw [hbase, hs, resolveBaseUrl, if_neg hne]
  · intro hs
    rw [hbase, hs, resolveBaseUrl]
  · intro hs
    rw [hs] at htime
    simp only [resolveTimeout] at htime
    exact (Except.ok.inj htime).symm
  · intro s v hs hv
    rw [hs] at htime
    simp only [resolveTimeout, hv] at htime
    exact (Except.ok.inj htime).symm
  · intro hs
    rw [hs] at hretr
    simp only [resolveMaxRetries] at hretr
    exact (Except.ok.inj hretr).symm
  · intro s v hs hv
    rw [hs] at hretr
    simp only [resolveMaxRetries, hv] at hretr
    exact (Except.ok.inj hretr).symm

/-- Witness for C9 at a concrete construction: explicit base URL
"https://api.example.com", METHOD_REQUEST_TIMEOUT "5" overriding the
explicit 60, METHOD_MAX_RETRIES unset so the explicit 4 applies. -/
theorem C9_construction_resolution_witness :
    clientInit
      { apiBaseUrl := some "https://env.example.com/",
        requestTimeout := some "5", maxRetries := none }
      (some "https://api.example.com") (some (.apiKey "k"))
      { apiKey := none, clientId := none, clientSecret := none,
        redirectUri := none, authorizeUrl := none, tokenUrl := none }
      60 4 =
      Except.ok { base_url := "https://api.example.com", timeout := 5,
                  max_retries := 4, auth := .apiKey "k" } ∧
    ("https://api.example.com" : String) = "https://api.example.com" ∧
    (5 : Rat) = 5 ∧ (4 : Int) = 4 := by
  have hc : clientInit
      { apiBaseUrl := some "https://env.example.com/",
        requestTimeout := some "5", maxRetries := none }
      (some "https://api.example.com") (some (.apiKey "k"))
      { apiKey := none, clientId := none, clientSecret := none,
        redirectUri := none, authorizeUrl := none, tokenUrl := none }
      60 4 =
      Except.ok { base_url := "https://api.example.com", timeout := 5,
                  max_retries := 4, auth := .apiKey "k" } := by rfl
  have h := C9_construction_resolution _ _ _ _ _ _ _ hc
  refine ⟨hc, ?_, ?_, ?_⟩
  · exact h.1 "https://api.example.com" rfl (by decide)
  · exact h.2.2.2.1 "5" 5 rfl (by rfl)
  · exact h.2.2.2.2.1 rfl

/-- C1 evaluated at the failing input: a transport that raises a connection
error on the first attempt (and would succeed from the third attempt on).
The try/except inside the request body wraps the ConnectError into a
MethodAPIError before tenacity's retry predicate
(`retry_if_exception_type((TimeoutException, ConnectError))`) ever sees it,
so the predicate never matches and no retry happens: the call fails after
exactly 1 attempt with the wrapped error, instead of returning the
successful result after 2 retries as the claim (and the decorator's own
configuration together with the class docstring "Automatic retries with
exponential backoff") requires. -/
theorem C1_retry_dead_code :
    request (fun i =>
      if i < 2 then .connectError "connection refused"
      else .response ⟨200, none, some (.obj [("value", .arr [])]), ""⟩) =
      (Except.error (.methodAPIError (handle_api_error (.connectError "connection refused"))), 1) ∧
    request (fun i =>
      if i < 2 then .connectError "connection refused"
      else .response ⟨200, none, some (.obj [("value", .arr [])]), ""⟩) ≠
      (Except.ok (.obj [("value", .arr [])]), 3) := by
  refine ⟨rfl, ?_⟩
  intro h
  rw [show request (fun i =>
      if i < 2 then .connectError "connection refused"
      else .response ⟨200, none, some (.obj [("value", .arr [])]), ""⟩) =
    (Except.error
      (.methodAPIError (handle_api_error (.connectError "connection refused"))), 1)
    from rfl] at h
  simp at h

/-- C5 counterexample: a 429 response whose Retry-After header is present
but not an integer ("tomorrow", e.g. an HTTP-date value).  `int(retry_after)`
raises ValueError, so status handling raises that ValueError — not the
RateLimitError the claim requires for every 429 response. -/
theorem C5_counterexample :
    statusHandle ⟨429, some "tomorrow", none, "429 Too Many Requests"⟩ =
      Except.error (.otherError "ValueError"
        "invalid literal for int() with base 10: 'tomorrow'") ∧
    isRateLimitResult
      (statusHandle ⟨429, some "tomorrow", none, "429 Too Many Requests"⟩) = false := by
  exact ⟨rfl, rfl⟩

/-- C5 amended: status handling proceeds in the claimed order, with the
429 clause weakened to integer-parseable headers: a 429 raises
RateLimitError with retry_after parsed from the Retry-After header when it
is present, non-empty and integer-parseable, and with retry_after absent
when the header is missing or empty; a present non-integer header makes
the 429 raise the int() ValueError instead of RateLimitError.  Any other
error status (400-599) raises the underlying HTTP status error; 204 returns
exactly the no-content success marker without parsing a body; any other
success status returns the parsed JSON body. -/
theorem C5_status_dispatch (r : HttpResponse) :
    (r.status = 429 → r.retryAfter = none →
      statusHandle r = Except.error (.rateLimitError "Rate limit exceeded" none)) ∧
    (r.status = 429 → r.retryAfter = some "" →
      statusHandle r = Except.error (.rateLimitError "Rate limit exceeded" none)) ∧
    (∀ h n, r.status = 429 → r.retryAfter = some h → h ≠ "" → pyInt? h = some n →
      statusHandle r = Except.error (.rateLimitError "Rate limit exceeded" (some n))) ∧
    (∀ h, r.status = 429 → r.retryAfter = some h → h ≠ "" → pyInt? h = none →
      isRateLimitResult (statusHandle r) = false) ∧
    (r.status ≠ 429 → 400 ≤ r.status → r.status < 600 →
      statusHandle r =
        Except.error (.httpStatusError r.status r.body r.retryAfter r.text)) ∧
    (r.status = 204 → statusHandle r = Except.ok successMarker) ∧
    (r.status ≠ 429 → ¬(400 ≤ r.status ∧ r.status < 600) → r.status ≠ 204 →
      statusHandle r =
        match r.body with
        | some j => Except.ok j
        | none => Except.error (.otherError "JSONDecodeError" "Expecting value")) := by
  obtain ⟨st, ra, body, text⟩ := r
  refine ⟨?_, ?_, ?_, ?_, ?_, ?_, ?_⟩
  · intro hst hra
    subst hst; subst hra
    rfl
  · intro hst hra
    subst hst; subst hra
    rfl
  · intro h n hst hra hne hint
    subst hst; subst hra
    rw [show statusHandle ⟨429, some h, body, text⟩ =
        (if h = "" then Except.error (.rateLimitError "Rate limit exceeded" none)
         else
           match pyInt? h with
           | some n => Except.error (.rateLimitError "Rate limit exceeded" (some n))
           | none => Except.error (.otherError "ValueError"
               ("invalid literal for int() with base 10: '" ++ h ++ "'")))
      from rfl, if_neg hne, hint]
  · intro h hst hra hne hint
    subst hst; subst hra
    rw [show statusHandle ⟨429, some h, body, text⟩ =
        (if h = "" then Except.error (.rateLimitError "Rate limit exceeded" none)
         else
           match pyInt? h with
           | some n => Except.error (.rateLimitError "Rate limit exceeded" (some n))
           | none => Except.error (.otherError "ValueError"
               ("invalid literal for int() with base 10: '" ++ h ++ "'")))
      from rfl, if_neg hne, hint]
    rfl
  · intro hne h4 h6
    simp only [statusHandle]
    rw [if_neg hne, if_pos ⟨h4, h6⟩]
  · intro hst
    subst hst
    rfl
  · intro hne hrange h204
    simp only [statusHandle]
    rw [if_neg hne, if_neg hrange, if_neg h204]

/-- Witness for C5 at concrete responses: a 429 with Retry-After "30", a
404, a 204, and a 200 with a JSON body. -/
theorem C5_status_dispatch_witness :
    statusHandle ⟨429, some "30", none, "t"⟩ =
      Except.error (.rateLimitError "Rate limit exceeded" (some 30)) ∧
    statusHandle ⟨404, none,
        some (.obj [("error", .obj [("message", .str "gone")])]), "404"⟩ =
      Except.error (.httpStatusError 404
        (some (.obj [("error", .obj [("message", .str "gone")])])) none "404") ∧
    statusHandle ⟨204, none, none, ""⟩ = Except.ok successMarker ∧
    statusHandle ⟨200, none, some (.obj [("value", .arr [])]), ""⟩ =
      Except.ok (.obj [("value", .arr [])]) := by
  refine ⟨?_, ?_, ?_, ?_⟩
  · exact (C5_status_dispatch ⟨429, some "30", none, "t"⟩).2.2.1
      "30" 30 rfl rfl (by decide) (by rfl)
  · exact (C5_status_dispatch ⟨404, none,
      some (.obj [("error", .obj [("message", .str "gone")])]), "404"⟩).2.2.2.2.1
      (by decide) (by decide) (by decide)
  · exact (C5_status_dispatch ⟨204, none, none, ""⟩).2.2.2.2.2.1 rfl
  · exact (C5_status_dispatch ⟨200, none, some (.obj [("value", .arr [])]), ""⟩).2.2.2.2.2.2
      (by decide) (by decide) (by decide)

/-- C8 counterexample: a dictionary payload containing an "error" key.
format_json_response re-routes it to the envelope's "error" field, so the
parsed output has no "data" member at all — the round trip does not
reproduce the payload under "data". -/
theorem C8_counterexample :
    jLookup "data"
      (format_json_response_obj (.obj [("error", .str "boom")]) true none) = none ∧
    jLookup "error"
      (format_json_response_obj (.obj [("error", .str "boom")]) true none) =
      some (.str "boom") := by
  exact ⟨rfl, rfl⟩

/-- C8 amended: for every JSON-safe payload that is not a dictionary
containing an "error" key, and every message that is either omitted or
non-empty (a supplied empty message is dropped by the truthiness check),
the envelope produced by format_json_response — whose json.dumps/json.loads
serialization is the standard library's and is modelled as faithful —
carries success true, the given message exactly when one was supplied, and
the payload deep-equal under "data". -/
theorem C8_roundtrip (data : Json) (message : Option String)
    (hdata : ∀ fields, data = Json.obj fields → jLookup "error" fields = none) :
    jLookup "success" (format_json_response_obj data true message) =
      some (.bool true) ∧
    jLookup "data" (format_json_response_obj data true message) = some data ∧
    (message = none →
      jLookup "message" (format_json_response_obj data true message) = none) ∧
    (∀ m, message = some m → m ≠ "" →
      jLookup "message" (format_json_response_obj data true message) =
        some (.str m)) := by
  have hbranch : format_json_response_obj data true message =
      (match message with
       | some m => if m = "" then [("success", Json.bool true)]
           else [("success", Json.bool true)] ++ [("message", Json.str m)]
       | none => [("success", Json.bool true)]) ++ [("data", data)] := by
    cases data with
    | obj fields =>
      have he := hdata fields rfl
      simp only [format_json_response_obj, he]
    | null => rfl
    | bool b => rfl
    | num n => rfl
    | str s => rfl
    | arr es => rfl
  rw [hbranch]
  refine ⟨?_, ?_, ?_, ?_⟩
  · cases message with
    | none => rfl
    | some m =>
      by_cases hm : m = ""
      · subst hm; rfl
      · simp only [if_neg hm]
        rfl
  · cases message with
    | none => rfl
    | some m =>
      by_cases hm : m = ""
      · subst hm; rfl
      · simp only [if_neg hm]
        rfl
  · intro hmsg
    subst hmsg
    rfl
  · intro m hmsg hne
    subst hmsg
    simp only [if_neg hne]
    rfl

/-- Witness for C8: payload a record dict without an "error" key and a
non-empty message. -/
theorem C8_roundtrip_witness :
    jLookup "success" (format_json_response_obj
      (.obj [("Name", .str "Ann")]) true (some "ok")) = some (.bool true) ∧
    jLookup "data" (format_json_response_obj
      (.obj [("Name", .str "Ann")]) true (some "ok")) =
      some (.obj [("Name", .str "Ann")]) ∧
    jLookup "message" (format_json_response_obj
      (.obj [("Name", .str "Ann")]) true (some "ok")) = some (.str "ok") := by
  have h := C8_roundtrip (.obj [("Name", .str "Ann")]) (some "ok")
    (by intro fields hf; cases hf; rfl)
  exact ⟨h.1, h.2.1, h.2.2.2 "ok" rfl (by decide)⟩

/-- C10: For every file-upload input whose base64 content decodes to more
than 50 MB, the upload tool fails before any network call — it returns the
size-limit error envelope and issues no HTTP request; and when the content
is not decodable as base64, it returns the distinct decoding error
envelope, again with no HTTP request issued.  (The lazily constructed
client must itself be constructible, or its authentication error is
reported instead — still without network traffic.) -/
theorem C10_upload_preflight (p : FileUploadInput) (env : UploadEnv) :
    (env.clientInit = Except.ok () → ∀ sz, env.decodeResult = Except.ok sz →
      sz > maxUploadSize →
      method_files_upload p env =
        (format_json_response
          (.obj [("error", .str ("File size (" ++ toString sz ++
            " bytes) exceeds 50MB limit (" ++ toString maxUploadSize ++ " bytes)"))])
          false none, 0)) ∧
    (env.clientInit = Except.ok () → ∀ t, env.decodeResult = Except.error t →
      method_files_upload p env =
        (format_json_response
          (.obj [("error", .str ("Invalid base64 content: " ++ t))])
          false none, 0)) := by
  obtain ⟨ci, dr, pr⟩ := env
  constructor
  · intro hci sz hdr hsz
    simp only at hci hdr
    subst hci; subst hdr
    simp only [method_files_upload, method_files_upload_core]
    rw [if_pos hsz]
  · intro hci t hdr
    simp only at hci hdr
    subst hci; subst hdr
    rfl

/-- Witness for C10: a 50 MB + 1 byte decode outcome (the content string
stands for a base64 text of that decoded size, which the decode oracle
carries; the text itself is not materialized) and a padding-failure decode
outcome ("QQ" genuinely raises Incorrect padding), each with a transport
that would fail if it were ever reached; zero HTTP requests are made in
both cases. -/
theorem C10_upload_preflight_witness :
    maxUploadSize + 1 > maxUploadSize ∧
    method_files_upload
      ⟨"big.bin", "QUJD", "Customer", "1", none⟩
      ⟨Except.ok (), Except.ok (maxUploadSize + 1),
        Except.error (.connectError "unreachable")⟩ =
      (format_json_response
        (.obj [("error", .str ("File size (" ++ toString (maxUploadSize + 1) ++
          " bytes) exceeds 50MB limit (" ++ toString maxUploadSize ++ " bytes)"))])
        false none, 0) ∧
    method_files_upload
      ⟨"bad.bin", "QQ", "Customer", "1", none⟩
      ⟨Except.ok (), Except.error "Incorrect padding",
        Except.error (.connectError "unreachable")⟩ =
      (format_json_response
        (.obj [("error", .str ("Invalid base64 content: Incorrect padding"))])
        false none, 0) := by
  refine ⟨by decide, ?_, ?_⟩
  · exact (C10_upload_preflight
      ⟨"big.bin", "QUJD", "Customer", "1", none⟩
      ⟨Except.ok (), Except.ok (maxUploadSize + 1),
        Except.error (.connectError "unreachable")⟩).1
      rfl (maxUploadSize + 1) rfl (by decide)
  · exact (C10_upload_preflight
      ⟨"bad.bin", "QQ", "Customer", "1", none⟩
      ⟨Except.ok (), Except.error "Incorrect padding",
        Except.error (.connectError "unreachable")⟩).2
      rfl "Incorrect padding" rfl

/-- C3 counterexample: the file-upload tool's oversized-content failure
path returns a JSON error envelope produced by format_json_response, not a
message produced by the error translator — no exception value translates to
this output (every translator output starts with "Error", the envelope
starts with a brace).  So not every failure path's string comes from the
error translator, as the claim requires. -/
theorem C3_counterexample :
    ¬ ∃ e, handle_api_error e =
      (method_files_upload
        ⟨"big.bin", "QUJD", "Customer", "1", none⟩
        ⟨Except.ok (), Except.ok (maxUploadSize + 1),
          Except.error (.connectError "unreachable")⟩).1 := by
  intro h
  obtain ⟨e, he⟩ := h
  obtain ⟨r, hr⟩ := handle_api_error_head e
  rw [he] at hr
  rw [show (method_files_upload
        ⟨"big.bin", "QUJD", "Customer", "1", none⟩
        ⟨Except.ok (), Except.ok (maxUploadSize + 1),
          Except.error (.connectError "unreachable")⟩).1 =
      "\x7b\n  \"success\": false,\n  \"error\": \"File size (52428801 bytes) exceeds 50MB limit (52428800 bytes)\"\n\x7d"
    from rfl] at hr
  have hd := congrArg String.data hr
  rw [String.data_append] at hd
  have h2 := congrArg List.head? hd
  rw [show ("Error" : String).data = 'E' :: "rror".data from rfl,
    List.cons_append] at h2
  simp at h2

/-- C3 amended: neither tool ever raises past its boundary — the boundary
catch of method_tables_query and method_files_upload turns every exception
raised by the body into the error translator's message, verbatim, and
passes every non-raising result string through unchanged.  (The upload
tool's pre-network size-limit and base64-decode failures, and its 413
branch, are non-raising results: they return format_json_response error
envelopes rather than translator messages — see the counterexample.) -/
theorem C3_tool_boundary (p : TableQueryInput) (envT : TablesEnv)
    (q : FileUploadInput) (envU : UploadEnv) :
    (∀ e, method_tables_query_body p envT = Except.error e →
      method_tables_query p envT = handle_api_error e) ∧
    (∀ s, method_tables_query_body p envT = Except.ok s →
      method_tables_query p envT = s) ∧
    (∀ e n, method_files_upload_core q envU = (Except.error e, n) →
      method_files_upload q envU = (handle_api_error e, n)) ∧
    (∀ s n, method_files_upload_core q envU = (Except.ok s, n) →
      method_files_upload q envU = (s, n)) := by
  refine ⟨?_, ?_, ?_, ?_⟩
  · intro e he
    simp only [method_tables_query, he]
  · intro s hs
    simp only [method_tables_query, hs]
  · intro e n he
    simp only [method_files_upload, he]
  · intro s n hs
    simp only [method_files_upload, hs]

/-- Witness for C3 at concrete calls: a table query whose request raises
NotFoundError returns exactly the translator's message; an oversized upload
returns its non-raising envelope with no HTTP request made. -/
theorem C3_tool_boundary_witness :
    method_tables_query
      ⟨"Customer", none, none, some 2, none, none, none, none, .json⟩
      ⟨Except.error (.notFoundError "gone")⟩ =
      handle_api_error (.notFoundError "gone") ∧
    method_files_upload
      ⟨"big.bin", "QUJD", "Customer", "1", none⟩
      ⟨Except.ok (), Except.ok (maxUploadSize + 1),
        Except.error (.connectError "unreachable")⟩ =
      (format_json_response
        (.obj [("error", .str ("File size (" ++ toString (maxUploadSize + 1) ++
          " bytes) exceeds 50MB limit (" ++ toString maxUploadSize ++ " bytes)"))])
        false none, 0) := by
  constructor
  · exact (C3_tool_boundary
      ⟨"Customer", none, none, some 2, none, none, none, none, .json⟩
      ⟨Except.error (.notFoundError "gone")⟩
      ⟨"big.bin", "QUJD", "Customer", "1", none⟩
      ⟨Except.ok (), Except.ok (maxUploadSize + 1),
        Except.error (.connectError "unreachable")⟩).1
      (.notFoundError "gone") rfl
  · exact (C3_tool_boundary
      ⟨"Customer", none, none, some 2, none, none, none, none, .json⟩
      ⟨Except.error (.notFoundError "gone")⟩
      ⟨"big.bin", "QUJD", "Customer", "1", none⟩
      ⟨Except.ok (), Except.ok (maxUploadSize + 1),
        Except.error (.connectError "unreachable")⟩).2.2.2
      (format_json_response
        (.obj [("error", .str ("File size (" ++ toString (maxUploadSize + 1) ++
          " bytes) exceeds 50MB limit (" ++ toString maxUploadSize ++ " bytes)"))])
        false none) 0 rfl

end MethodMcp
